import Mathlib

/-!
Verification of `src/scripts/ci/json_dup_key_check.py`, a CI gate that checks a
JSON file for duplicate object keys.

The script is embedded shallowly:

* `PyVal` is the Python value produced by `json.load(f, object_pairs_hook=lambda pairs: pairs)`:
  every JSON object becomes a Python list of `(str, value)` tuples, every JSON
  array a Python list, in source order, with no deduplication.
* `check_duplicate_keys` mirrors the Python function of the same name,
  including CPython duck typing: iterating a non-iterable raises `TypeError`,
  tuple-unpacking an element of the wrong shape raises `TypeError`/`ValueError`,
  and set membership of an unhashable key raises `TypeError`.  These exceptions
  surface as the `Except.error` branch.
* `main` mirrors the Python `main`, with the environment (argv, the filesystem
  and the `json` parser outcome) passed in as explicit arguments.

Modelling notes: JSON numbers are modelled as integers (every numeric literal in
the statements below is an integer, and numbers never reach a key comparison);
exception message texts stay close to those of CPython but without quote marks,
and are never printed by the program (they only select the uncaught branch).
-/

namespace JsonDupKeyCheck

/-- The Python value tree that `json.load` with
`object_pairs_hook=lambda pairs: pairs` returns: objects become ordered pair
lists (`pairs`), arrays become lists, both preserving source order and
duplicates. -/
inductive PyVal where
  | null : PyVal
  | bool : Bool → PyVal
  | num : Int → PyVal
  | str : String → PyVal
  | list : List PyVal → PyVal
  | pairs : List (String × PyVal) → PyVal

mutual

/-- Python `==` on the values above (structural; used by `set` membership). -/
def pvBeq : PyVal → PyVal → Bool
  | .null, .null => true
  | .bool a, .bool b => a == b
  | .num a, .num b => a == b
  | .str a, .str b => a == b
  | .list xs, .list ys => pvBeqList xs ys
  | .pairs xs, .pairs ys => pvBeqPairs xs ys
  | _, _ => false

/-- Elementwise Python `==` on lists of values. -/
def pvBeqList : List PyVal → List PyVal → Bool
  | [], [] => true
  | x :: xs, y :: ys => pvBeq x y && pvBeqList xs ys
  | _, _ => false

/-- Elementwise Python `==` on lists of `(str, value)` tuples. -/
def pvBeqPairs : List (String × PyVal) → List (String × PyVal) → Bool
  | [], [] => true
  | (k, v) :: xs, (l, w) :: ys => k == l && pvBeq v w && pvBeqPairs xs ys
  | _, _ => false

end

/-- Python exceptions that can escape `check_duplicate_keys` or the I/O layer. -/
inductive PyExn where
  | typeError : String → PyExn
  | valueError : String → PyExn
  | osError : String → PyExn
  | unicodeDecodeError : String → PyExn
deriving DecidableEq

/-- The Python type name of a value, as it appears in CPython error messages. -/
def typeName : PyVal → String
  | .null => "NoneType"
  | .bool _ => "bool"
  | .num _ => "int"
  | .str _ => "str"
  | .list _ => "list"
  | .pairs _ => "list"

/-- One item yielded by `for key, value in pairs`: a plain value (from a list
or a string) or a `(str, value)` tuple (from an object pair list). -/
inductive PyItem where
  | val : PyVal → PyItem
  | pair : String → PyVal → PyItem

/-- A key as it lands in the `keys_seen` set: a plain value, or a
`(str, value)` tuple arising when an element of a list is itself a two-pair
object whose first tuple becomes the key. -/
inductive PyKey where
  | val : PyVal → PyKey
  | tup : String → PyVal → PyKey

/-- Python `==` on keys (tuples compare componentwise). -/
def keyBeq : PyKey → PyKey → Bool
  | .val a, .val b => pvBeq a b
  | .tup k v, .tup l w => k == l && pvBeq v w
  | _, _ => false

/-- Python hashability of a value: lists (and hence hook-produced objects,
which are lists of tuples) are unhashable, everything else here is hashable. -/
def pvHashable : PyVal → Bool
  | .list _ => false
  | .pairs _ => false
  | _ => true

/-- Hashability of a key: a tuple is hashable iff its components are. -/
def keyHashable : PyKey → Bool
  | .val v => pvHashable v
  | .tup _ v => pvHashable v

/-- Iteration, `iter(data)`, as consumed by `for key, value in pairs`: an object (a list
of tuples under the hook) yields its tuples, an array yields its elements, a
string yields its characters as one-character strings; `None`, booleans and
numbers are not iterable. -/
def iterItems : PyVal → Option (List PyItem)
  | .pairs ps => some (ps.map fun kv => .pair kv.1 kv.2)
  | .list xs => some (xs.map .val)
  | .str s => some (s.toList.map fun c => .val (.str (String.singleton c)))
  | _ => none

/-- Unpacking `key, value = item`: tuple-unpacking of one iterated item, returning the
key (the value is never consulted afterwards).  An item unpacks exactly when
it is itself an iterable of length two; otherwise CPython raises `ValueError`
(wrong length) or `TypeError` (not iterable). -/
def unpackKey : PyItem → Except PyExn PyKey
  | .pair k _ => .ok (.val (.str k))
  | .val (.list [a, _]) => .ok (.val a)
  | .val (.list xs) =>
      if xs.length < 2 then
        .error (.valueError "not enough values to unpack (expected 2)")
      else
        .error (.valueError "too many values to unpack (expected 2)")
  | .val (.pairs [p, _]) => .ok (.tup p.1 p.2)
  | .val (.pairs ps) =>
      if ps.length < 2 then
        .error (.valueError "not enough values to unpack (expected 2)")
      else
        .error (.valueError "too many values to unpack (expected 2)")
  | .val (.str s) =>
      match s.toList with
      | [c, _] => .ok (.val (.str (String.singleton c)))
      | cs =>
        if cs.length < 2 then
          .error (.valueError "not enough values to unpack (expected 2)")
        else
          .error (.valueError "too many values to unpack (expected 2)")
  | .val v => .error (.typeError ("cannot unpack non-iterable " ++ typeName v ++ " object"))

/-- The `for key, value in pairs:` body of `check_duplicate_keys`, with the
`keys_seen` set carried as the list of keys inserted so far.  CPython hashes
the key when evaluating `key in keys_seen`, so an unhashable key raises
`TypeError` before any comparison. -/
def keysLoop : List PyItem → List PyKey → Except PyExn Bool
  | [], _ => .ok false
  | item :: rest, seen =>
    match unpackKey item with
    | .error e => .error e
    | .ok key =>
      if keyHashable key then
        if seen.any (keyBeq key) then .ok true
        else keysLoop rest (key :: seen)
      else .error (.typeError "unhashable type: list")

/-- The function `check_duplicate_keys(pairs)` from the script, applied (as `main` does) to
whatever `json.load` returned.  The Python function is duck typed: it accepts
anything iterable whose items unpack into two parts with a hashable first
part, and raises for everything else. -/
def check_duplicate_keys (data : PyVal) : Except PyExn Bool :=
  match iterItems data with
  | none => .error (.typeError (typeName data ++ " object is not iterable"))
  | some items => keysLoop items []

/-- What one run of the process does: print one line to stdout and exit with
the given code, or let an exception propagate out of `main` (nothing printed
to stdout; CPython then prints a traceback to stderr). -/
inductive Outcome where
  | exitWith : Nat → String → Outcome
  | uncaught : PyExn → Outcome
deriving DecidableEq

/-- The environment behind `open(file_path)` / `f.read()` / `json.load`:
`missing` is `FileNotFoundError`; `ioError` is any other exception raised
while opening or reading (e.g. `IsADirectoryError` for a directory path, or
`UnicodeDecodeError` for non-UTF-8 bytes); `text (.error m)` is a
`json.JSONDecodeError` whose rendered detail is `m`; `text (.ok v)` is a
successful parse producing `v` under the pair-preserving hook. -/
inductive FileInput where
  | missing : FileInput
  | ioError : PyExn → FileInput
  | text : Except String PyVal → FileInput

/-- The function `main()` of the script.  `argv` is `sys.argv` (program name included);
`fs` is the filesystem/parser response for `argv[1]`, consulted only when the
argument count check passes.  A `print` followed by `sys.exit(n)` becomes
`Outcome.exitWith n msg`; the two `except` clauses catch exactly
`json.JSONDecodeError` and `FileNotFoundError`, so every other exception
escapes as `Outcome.uncaught`. -/
def main (argv : List String) (fs : FileInput) : Outcome :=
  if argv.length ≠ 2 then
    .exitWith 1 "Usage: python json_dup_key_check.py <json_file>"
  else
    let file_path := argv.getD 1 ""
    match fs with
    | .missing => .exitWith 1 ("File not found: " ++ file_path)
    | .ioError e => .uncaught e
    | .text (.error e) => .exitWith 1 ("Invalid JSON in " ++ file_path ++ ": " ++ e)
    | .text (.ok data) =>
      match check_duplicate_keys data with
      | .ok true => .exitWith 1 ("Duplicate keys found in " ++ file_path)
      | .ok false => .exitWith 0 ("No duplicate keys in " ++ file_path)
      | .error e => .uncaught e

/-- A key list contains a repetition: some key occurs again later on. -/
def dupKeys : List String → Bool
  | [] => false
  | k :: ks => ks.contains k || dupKeys ks

/-- Declarative duplicate criterion on one ordered pair sequence, following
the spec: some key occurs at two distinct positions `i < j`. -/
def specHasDup (ps : List (String × PyVal)) : Prop :=
  ∃ (i j : Nat), ∃ (hi : i < ps.length) (hj : j < ps.length),
    i < j ∧ (ps.get ⟨i, hi⟩).1 = (ps.get ⟨j, hj⟩).1

mutual

/-- Spec-side recursive criterion (spec §8): some object at some nesting
depth, including objects nested inside arrays or other objects, has a
repeated key. -/
def specHasDupDeep : PyVal → Bool
  | .pairs ps => dupKeys (ps.map Prod.fst) || specHasDupDeepPairs ps
  | .list xs => specHasDupDeepList xs
  | _ => false

/-- Recursion of `specHasDupDeep` over the elements of an array. -/
def specHasDupDeepList : List PyVal → Bool
  | [] => false
  | x :: xs => specHasDupDeep x || specHasDupDeepList xs

/-- Recursion of `specHasDupDeep` over the values of an object. -/
def specHasDupDeepPairs : List (String × PyVal) → Bool
  | [] => false
  | kv :: ps => specHasDupDeep kv.2 || specHasDupDeepPairs ps

end

mutual

/-- The document contains no JSON object at any depth. -/
def noObject : PyVal → Bool
  | .pairs _ => false
  | .list xs => noObjectList xs
  | _ => true

/-- Recursion of `noObject` over the elements of an array. -/
def noObjectList : List PyVal → Bool
  | [] => true
  | x :: xs => noObject x && noObjectList xs

end

/-- The key loop specialised to string keys: the shape `keysLoop` takes on a
genuine pair list, where every item is a `(str, value)` tuple. -/
def strLoop : List String → List String → Bool
  | [], _ => false
  | k :: ks, seen => if seen.contains k then true else strLoop ks (k :: seen)


/-- Unfolding of `keyBeq` on two string keys. -/
theorem keyBeq_str (k s : String) :
    keyBeq (.val (.str k)) (.val (.str s)) = (k == s) := by
  simp [keyBeq, pvBeq]

/-- Membership of a string key in a seen-set of string keys. -/
theorem any_keyBeq_map (k : String) (seen : List String) :
    (seen.map fun s => PyKey.val (.str s)).any (keyBeq (.val (.str k)))
      = seen.contains k := by
  induction seen with
  | nil => rfl
  | cons s ss ih =>
    simp only [List.map_cons, List.any_cons, List.contains_cons, ih, keyBeq_str]

/-- On a genuine pair list every item is a `(str, value)` tuple, so the key
loop computes the pure string loop. -/
theorem keysLoop_pairs (ps : List (String × PyVal)) (seen : List String) :
    keysLoop (ps.map fun kv => PyItem.pair kv.1 kv.2)
        (seen.map fun s => PyKey.val (.str s))
      = .ok (strLoop (ps.map Prod.fst) seen) := by
  induction ps generalizing seen with
  | nil => rfl
  | cons kv ps ih =>
    obtain ⟨k, v⟩ := kv
    simp only [List.map_cons, keysLoop, unpackKey, keyHashable, pvHashable,
      any_keyBeq_map, strLoop]
    cases hc : seen.contains k with
    | true => simp [hc]
    | false =>
      simpa [hc] using ih (k :: seen)

/-- Characterisation of the string loop: it hits `true` exactly when some key
is already in the carried set or the remaining keys repeat. -/
theorem strLoop_true (ks : List String) (seen : List String) :
    strLoop ks seen = true ↔ (∃ k ∈ ks, k ∈ seen) ∨ ¬ ks.Nodup := by
  induction ks generalizing seen with
  | nil => simp [strLoop]
  | cons k ks ih =>
    simp only [strLoop]
    cases hc : seen.contains k with
    | true =>
      have hk : k ∈ seen := by simpa using hc
      rw [if_pos rfl]
      exact ⟨fun _ => Or.inl ⟨k, List.mem_cons_self k ks, hk⟩, fun _ => rfl⟩
    | false =>
      have hk : k ∉ seen := by simpa using hc
      rw [if_neg (by simp)]
      rw [ih (k :: seen)]
      constructor
      · rintro (⟨x, hx, hmem⟩ | hnd)
        · rcases List.mem_cons.mp hmem with rfl | hs
          · exact Or.inr (fun hnd => (List.nodup_cons.mp hnd).1 hx)
          · exact Or.inl ⟨x, List.mem_cons_of_mem k hx, hs⟩
        · exact Or.inr (fun h => hnd (List.nodup_cons.mp h).2)
      · rintro (⟨x, hx, hs⟩ | hnd)
        · rcases List.mem_cons.mp hx with rfl | hx2
          · exact absurd hs hk
          · exact Or.inl ⟨x, hx2, List.mem_cons_of_mem k hs⟩
        · by_cases hmem : k ∈ ks
          · exact Or.inl ⟨k, hmem, List.mem_cons_self k seen⟩
          · refine Or.inr fun h => hnd (List.nodup_cons.mpr ⟨hmem, h⟩)

/-- The spec-side repetition test on a key list agrees with non-`Nodup`. -/
theorem dupKeys_iff (ks : List String) : dupKeys ks = true ↔ ¬ ks.Nodup := by
  induction ks with
  | nil => simp [dupKeys]
  | cons k ks ih =>
    simp [dupKeys, List.nodup_cons, ih, not_and_or]
    tauto

/-- On a pair list, `check_duplicate_keys` computes the pure string loop. -/
theorem check_pairs_eq (ps : List (String × PyVal)) :
    check_duplicate_keys (.pairs ps) = .ok (strLoop (ps.map Prod.fst) []) := by
  simpa [check_duplicate_keys, iterItems] using keysLoop_pairs ps []

/-- A repetition-free key list drives the string loop to `false`. -/
theorem strLoop_nil_false (ks : List String) (h : ks.Nodup) :
    strLoop ks [] = false := by
  cases hs : strLoop ks [] with
  | false => rfl
  | true =>
    rcases (strLoop_true ks []).mp hs with ⟨x, _, hx⟩ | hnd
    · exact absurd hx (List.not_mem_nil x)
    · exact absurd h hnd

/-- Failing `Nodup` on the key list is the declarative two-position criterion. -/
theorem not_nodup_iff_specHasDup (ps : List (String × PyVal)) :
    ¬ (ps.map Prod.fst).Nodup ↔ specHasDup ps := by
  rw [List.Nodup, List.pairwise_iff_getElem]
  push_neg
  constructor
  · rintro ⟨i, j, hi, hj, hij, heq⟩
    rw [List.length_map] at hi hj
    refine ⟨i, j, hi, hj, hij, ?_⟩
    simpa [List.getElem_map] using heq
  · rintro ⟨i, j, hi, hj, hij, heq⟩
    refine ⟨i, j, ?_, ?_, hij, ?_⟩
    · simpa [List.length_map] using hi
    · simpa [List.length_map] using hj
    · simpa [List.getElem_map, List.get_eq_getElem] using heq


/-- Value of one hex digit, as `json.decoder` accepts them. -/
def hexDigit (c : Char) : Option Nat :=
  if '0' ≤ c ∧ c ≤ '9' then some (c.toNat - '0'.toNat)
  else if 'a' ≤ c ∧ c ≤ 'f' then some (c.toNat - 'a'.toNat + 10)
  else if 'A' ≤ c ∧ c ≤ 'F' then some (c.toNat - 'A'.toNat + 10)
  else none

/-- Value of four hex digits, as `_decode_uXXXX` computes it. -/
def hex4 (a b c d : Char) : Option Nat := do
  let x ← hexDigit a
  let y ← hexDigit b
  let z ← hexDigit c
  let w ← hexDigit d
  return ((x * 16 + y) * 16 + z) * 16 + w

/-- Standard JSON string unescaping as `json.decoder.py_scanstring` performs
it on the text between the quotes (strict mode): a plain character other than
a control character passes through, the short escapes map to their characters,
and a `\uXXXX` escape decodes to its code point, with a high+low surrogate
pair combining into one character.  A lone surrogate is rejected here (CPython
would keep it, but a Lean `String` cannot hold one; no claim involves one). -/
def unescapeChars : List Char → Option (List Char)
  | [] => some []
  | '\\' :: 'u' :: a :: b :: c :: d :: rest =>
    match hex4 a b c d with
    | none => none
    | some n =>
      if 0xD800 ≤ n ∧ n ≤ 0xDBFF then
        match rest with
        | '\\' :: 'u' :: e :: f :: g :: h :: rest2 =>
          match hex4 e f g h with
          | none => none
          | some m =>
            if 0xDC00 ≤ m ∧ m ≤ 0xDFFF then
              (Char.ofNat (0x10000 + (n - 0xD800) * 0x400 + (m - 0xDC00)) :: ·)
                <$> unescapeChars rest2
            else none
        | _ => none
      else if 0xDC00 ≤ n ∧ n ≤ 0xDFFF then none
      else (Char.ofNat n :: ·) <$> unescapeChars rest
  | '\\' :: c :: rest =>
    match c with
    | '"' => ('"' :: ·) <$> unescapeChars rest
    | '\\' => ('\\' :: ·) <$> unescapeChars rest
    | '/' => ('/' :: ·) <$> unescapeChars rest
    | 'b' => (Char.ofNat 8 :: ·) <$> unescapeChars rest
    | 'f' => (Char.ofNat 12 :: ·) <$> unescapeChars rest
    | 'n' => (Char.ofNat 10 :: ·) <$> unescapeChars rest
    | 'r' => (Char.ofNat 13 :: ·) <$> unescapeChars rest
    | 't' => (Char.ofNat 9 :: ·) <$> unescapeChars rest
    | _ => none
  | '\\' :: [] => none
  | c :: rest =>
    if c.toNat < 0x20 then none
    else (c :: ·) <$> unescapeChars rest

/-- Unescaping of a whole JSON string body (the decoded key text). -/
def jsonUnescape (s : String) : Option String :=
  (fun cs => String.mk cs) <$> unescapeChars s.toList

/-- On a two-key object the check fires exactly on equal key strings. -/
theorem two_key_object_dup_iff (k l : String) (v w : PyVal) :
    check_duplicate_keys (.pairs [(k, v), (l, w)]) = .ok true ↔ k = l := by
  rw [check_pairs_eq]
  by_cases h : k = l
  · subst h
    simp [strLoop]
  · simp [strLoop, List.contains_cons, List.contains_nil, h, Ne.symm h]


/-- Two distinct strings never collide in the two-string message templates. -/
theorem invalid_ne_duplicate_msg (p e : String) :
    ("Invalid JSON in " ++ p ++ ": " ++ e) ≠ ("Duplicate keys found in " ++ p) := by
  intro h
  have hd := congrArg String.data h
  simp only [String.data_append, List.cons_append] at hd
  injection hd with hhead _
  exact absurd hhead (by decide)

/-- C1 (code-bug evidence): the document
`{"a": {"x": 1, "x": 2}, "b": 3}` has a repeated key in a nested object, yet
`check_duplicate_keys` — which `main` applies to the top-level pair list only —
returns `false` and the run prints the no-duplicate message and exits 0,
where the claim requires the duplicate-found message and exit 1. -/
theorem nested_duplicate_slips_through :
    specHasDupDeep
        (.pairs [("a", .pairs [("x", .num 1), ("x", .num 2)]), ("b", .num 3)])
      = true ∧
    check_duplicate_keys
        (.pairs [("a", .pairs [("x", .num 1), ("x", .num 2)]), ("b", .num 3)])
      = .ok false ∧
    main ["json_dup_key_check.py", "cfg.json"]
        (.text (.ok (.pairs [("a", .pairs [("x", .num 1), ("x", .num 2)]), ("b", .num 3)])))
      = .exitWith 0 "No duplicate keys in cfg.json" :=
  ⟨rfl, rfl, rfl⟩

/-- C2 (counterexample): `42` is a syntactically valid JSON document in which
no object at any depth has a repeated key, yet the run does not print the
no-duplicate message and exit 0 — the loop raises an uncaught `TypeError`. -/
theorem valid_nonobject_breaks_exit0_claim :
    specHasDupDeep (.num 42) = false ∧
    main ["json_dup_key_check.py", "f.json"] (.text (.ok (.num 42)))
      = .uncaught (.typeError "int object is not iterable") ∧
    main ["json_dup_key_check.py", "f.json"] (.text (.ok (.num 42)))
      ≠ .exitWith 0 "No duplicate keys in f.json" :=
  ⟨rfl, rfl, by decide⟩

/-- C2 (amended): for every syntactically valid JSON document whose top-level
value is an object and in which no object at any nesting depth has a repeated
key, the scanner returns `false` and the process prints the no-duplicate
message and exits 0. -/
theorem no_dup_top_object_exits_zero (a0 p : String) (ps : List (String × PyVal))
    (h : specHasDupDeep (.pairs ps) = false) :
    check_duplicate_keys (.pairs ps) = .ok false ∧
      main [a0, p] (.text (.ok (.pairs ps)))
        = .exitWith 0 ("No duplicate keys in " ++ p) := by
  have hdk : dupKeys (ps.map Prod.fst) = false := by
    simp only [specHasDupDeep, Bool.or_eq_false_iff] at h
    exact h.1
  have hnd : (ps.map Prod.fst).Nodup := by
    by_contra hn
    have := (dupKeys_iff _).mpr hn
    rw [hdk] at this
    exact Bool.false_ne_true this
  have hck : check_duplicate_keys (.pairs ps) = .ok false := by
    rw [check_pairs_eq, strLoop_nil_false _ hnd]
  refine ⟨hck, ?_⟩
  simp [main, hck]

/-- C2 witness: a duplicate-free two-key object exits 0 with the message. -/
theorem no_dup_top_object_exits_zero_witness :
    check_duplicate_keys (.pairs [("a", .num 1), ("b", .num 2)]) = .ok false ∧
      main ["json_dup_key_check.py", "cfg.json"]
          (.text (.ok (.pairs [("a", .num 1), ("b", .num 2)])))
        = .exitWith 0 ("No duplicate keys in " ++ "cfg.json") :=
  no_dup_top_object_exits_zero "json_dup_key_check.py" "cfg.json"
    [("a", .num 1), ("b", .num 2)] rfl

/-- C3: on a single ordered pair sequence the stepwise seen-set loop inside
`check_duplicate_keys` returns `true` exactly when some key string occurs at
two distinct positions `i < j` of the sequence. -/
theorem stepwise_check_iff_exists_repeat (ps : List (String × PyVal)) :
    check_duplicate_keys (.pairs ps) = .ok true ↔ specHasDup ps := by
  rw [check_pairs_eq]
  have hinj : (Except.ok (ε := PyExn) (strLoop (ps.map Prod.fst) []) = .ok true)
      ↔ strLoop (ps.map Prod.fst) [] = true := by
    exact ⟨fun h => by injection h, fun h => by rw [h]⟩
  rw [hinj, strLoop_true]
  simp only [List.not_mem_nil, and_false, exists_false, false_or]
  exact not_nodup_iff_specHasDup ps

/-- C3 witness: the loop fires on the pair sequence of `{"a": 1, "a": 2}`. -/
theorem stepwise_check_iff_exists_repeat_witness :
    check_duplicate_keys (.pairs [("a", .num 1), ("a", .num 2)]) = .ok true :=
  (stepwise_check_iff_exists_repeat [("a", .num 1), ("a", .num 2)]).mpr
    ⟨0, 1, by decide, by decide, by decide, rfl⟩

/-- C4: keys are compared by exact string equality on the decoded key text —
a two-key object is flagged iff its keys are identical strings — and standard
JSON unescaping sends `\u0061` and `a` to the same string while `A` and `a`
stay distinct (no case folding, no trimming). -/
theorem key_comparison_exact :
    (∀ (k l : String) (v w : PyVal),
        check_duplicate_keys (.pairs [(k, v), (l, w)]) = .ok true ↔ k = l) ∧
    jsonUnescape "\\u0061" = some "a" ∧
    jsonUnescape "a" = some "a" ∧
    jsonUnescape "A" = some "A" ∧
    ("A" : String) ≠ "a" ∧
    check_duplicate_keys (.pairs [("a", .num 1), ("a", .num 2)]) = .ok true ∧
    check_duplicate_keys (.pairs [("A", .num 1), ("a", .num 2)]) = .ok false :=
  ⟨two_key_object_dup_iff, rfl, rfl, rfl, by decide, rfl, rfl⟩

/-- C5: a parse failure makes the run print exactly the invalid-JSON message
and exit 1, an outcome distinct from the duplicate-found one. -/
theorem invalid_json_message (a0 p e : String) :
    main [a0, p] (.text (.error e))
      = .exitWith 1 ("Invalid JSON in " ++ p ++ ": " ++ e) ∧
    ("Invalid JSON in " ++ p ++ ": " ++ e) ≠ ("Duplicate keys found in " ++ p) :=
  ⟨rfl, invalid_ne_duplicate_msg p e⟩

/-- C5 witness: concrete invalid-JSON run. -/
theorem invalid_json_message_witness :
    main ["json_dup_key_check.py", "f.json"] (.text (.error "Expecting value"))
      = .exitWith 1 ("Invalid JSON in " ++ "f.json" ++ ": " ++ "Expecting value") ∧
    ("Invalid JSON in " ++ "f.json" ++ ": " ++ "Expecting value")
      ≠ ("Duplicate keys found in " ++ "f.json") :=
  invalid_json_message "json_dup_key_check.py" "f.json" "Expecting value"

/-- C6: a missing file makes the run print exactly the file-not-found message
and exit 1; the `FileInput.missing` case carries no parsed content, so no
parse is consulted. -/
theorem missing_file_message (a0 p : String) :
    main [a0, p] .missing = .exitWith 1 ("File not found: " ++ p) := rfl

/-- C7: any argument count other than exactly one positional argument (that
is, `len(sys.argv) != 2`) prints exactly the usage message and exits 1, for
every state of the filesystem. -/
theorem wrong_arg_count_usage (argv : List String) (fs : FileInput)
    (h : argv.length ≠ 2) :
    main argv fs = .exitWith 1 "Usage: python json_dup_key_check.py <json_file>" := by
  unfold main
  rw [if_pos h]

/-- C7 witness: zero arguments. -/
theorem wrong_arg_count_usage_witness :
    main [] .missing = .exitWith 1 "Usage: python json_dup_key_check.py <json_file>" :=
  wrong_arg_count_usage [] .missing (by decide)

/-- C8: the run is a function of its input — two runs on the same argv and
the same file state produce the same outcome (exit code and message). -/
theorem deterministic_run (argv : List String) (fs : FileInput)
    (o1 o2 : Outcome) (h1 : o1 = main argv fs) (h2 : o2 = main argv fs) :
    o1 = o2 :=
  h1.trans h2.symm

/-- C8 witness: two runs on a missing file agree. -/
theorem deterministic_run_witness :
    Outcome.exitWith 1 ("File not found: " ++ "f.json")
      = Outcome.exitWith 1 ("File not found: " ++ "f.json") :=
  deterministic_run ["json_dup_key_check.py", "f.json"] .missing _ _ rfl rfl

/-- C9: only `json.JSONDecodeError` and `FileNotFoundError` are caught: any
other exception from opening/reading, and any exception from
`check_duplicate_keys` itself, propagates uncaught with nothing printed to
stdout — and the latter branch is reachable on valid JSON (`42`). -/
theorem uncaught_exceptions :
    (∀ (a0 p : String) (e : PyExn), main [a0, p] (.ioError e) = .uncaught e) ∧
    (∀ (a0 p : String) (v : PyVal) (e : PyExn),
        check_duplicate_keys v = .error e →
          main [a0, p] (.text (.ok v)) = .uncaught e) ∧
    check_duplicate_keys (.num 42)
      = .error (.typeError "int object is not iterable") := by
  refine ⟨fun a0 p e => rfl, fun a0 p v e h => ?_, rfl⟩
  simp [main, h]

/-- C9 witness: the valid JSON document `42` escapes as a `TypeError`. -/
theorem uncaught_exceptions_witness :
    main ["json_dup_key_check.py", "f.json"] (.text (.ok (.num 42)))
      = .uncaught (.typeError "int object is not iterable") :=
  uncaught_exceptions.2.1 "json_dup_key_check.py" "f.json" (.num 42)
    (.typeError "int object is not iterable") rfl

/-- C10: the object-free document `[["a", 1], ["a", 2]]` — an array of
two-element arrays with a repeated first element — is treated as a pair list,
so the run prints the duplicate-found message and exits 1. -/
theorem array_pair_list_duplicate :
    noObject (.list [.list [.str "a", .num 1], .list [.str "a", .num 2]]) = true ∧
    check_duplicate_keys (.list [.list [.str "a", .num 1], .list [.str "a", .num 2]])
      = .ok true ∧
    main ["json_dup_key_check.py", "data.json"]
        (.text (.ok (.list [.list [.str "a", .num 1], .list [.str "a", .num 2]])))
      = .exitWith 1 "Duplicate keys found in data.json" :=
  ⟨rfl, rfl, rfl⟩

end JsonDupKeyCheck
